import Mathlib

/-!
Verification of the WQI scoring engine of `wqi_app.py` (Lario Reti WQI app).

The engine is embedded shallowly: parameter configurations are records whose
optional fields model Python dict keys that may be missing, samples are
functions from parameter names to optional measurements, and the fallible
Python functions return `Except String` values so that dictionary `KeyError`s
and `ZeroDivisionError`s are visible in the model.
-/

instance {ε α : Type _} [DecidableEq ε] [DecidableEq α] : DecidableEq (Except ε α) := fun a b =>
  match a, b with
  | .error e, .error e' =>
    if h : e = e' then isTrue (by rw [h]) else isFalse (fun hh => h (Except.error.inj hh))
  | .ok x, .ok x' =>
    if h : x = x' then isTrue (by rw [h]) else isFalse (fun hh => h (Except.ok.inj hh))
  | .error _, .ok _ => isFalse (fun hh => Except.noConfusion hh)
  | .ok _, .error _ => isFalse (fun hh => Except.noConfusion hh)

/-- A parameter's configuration entry.  The Python source stores these as
dicts which carry `weight` always, and `standard` or `low`/`high` depending on
the parameter; a key missing from the dict is modelled as `none`. -/
structure ParamConfig where
  weight : ℚ
  standard : Option ℚ
  low : Option ℚ
  high : Option ℚ
deriving DecidableEq, Repr

/-- A parameter set: an insertion-ordered association list, mirroring the
iteration order of a Python dict. -/
abbrev ParameterSet := List (String × ParamConfig)

/-- A sample row.  `none` models a key that is absent from the row,
`some none` a key that is present but holds NaN, and `some (some v)` a key
holding the finite measurement `v`.  The engine treats the first two
identically (both fail the `param in data and not pd.isna(data[param])`
guard), but keeping them distinct lets us state faithfully how the batch
code fills missing CSV columns with NaN. -/
abbrev Sample := String → Option (Option ℚ)

/-- Shorthand for a `{'weight': w, 'standard': s}` entry. -/
def stdSpec (w s : ℚ) : ParamConfig := ⟨w, some s, none, none⟩

/-- Shorthand for the `{'weight': w, 'low': lo, 'high': hi}` pH entry. -/
def phSpec (w lo hi : ℚ) : ParamConfig := ⟨w, none, some lo, some hi⟩

/-- Translation of `calculate_sub_index(value, param, param_config)`.
`value = none` models a NaN argument (the `pd.isna(value)` guard).  A lookup
of a missing dict key and a division by zero are Python exceptions and are
modelled as `Except.error`. -/
def calculate_sub_index (value : Option ℚ) (param : String) (param_config : ParamConfig) :
    Except String (Option ℚ) :=
  match value with
  | none => .ok none
  | some v =>
    if param = "pH" then
      match param_config.high with
      | none => .error ("KeyError: high")
      | some h =>
        if h - 7 = 0 then .error ("ZeroDivisionError")
        else .ok (some (|(v - 7) / (h - 7)| * 100))
    else
      match param_config.standard with
      | none => .error ("KeyError: standard")
      | some s =>
        if s = 0 then .error ("ZeroDivisionError")
        else .ok (some (v / s * 100))

/-- One iteration of the `for param, config in params.items()` loop of
`calculate_wqi`, acting on the accumulator `(wqi, total_weight)`. -/
def wqiStep (data : Sample) (acc : ℚ × ℚ) (pc : String × ParamConfig) :
    Except String (ℚ × ℚ) :=
  match data pc.1 with
  | some (some v) =>
    match calculate_sub_index (some v) pc.1 pc.2 with
    | .error e => .error e
    | .ok none => .ok acc
    | .ok (some sub_index) => .ok (acc.1 + sub_index * pc.2.weight, acc.2 + pc.2.weight)
  | _ => .ok acc

/-- The accumulation loop of `calculate_wqi`, with exception propagation. -/
def wqiLoop (data : Sample) : ParameterSet → ℚ × ℚ → Except String (ℚ × ℚ)
  | [], acc => .ok acc
  | pc :: rest, acc =>
    match wqiStep data acc pc with
    | .error e => .error e
    | .ok acc' => wqiLoop data rest acc'

/-- Translation of `classify_wqi(wqi)`. -/
def classify_wqi (wqi : ℚ) : String :=
  if wqi < 50 then "Excellent water"
  else if wqi ≤ 100 then "Good water"
  else if wqi ≤ 200 then "Poor water"
  else if wqi ≤ 300 then "Very poor water"
  else "Unsuitable for drinking"

/-- Translation of `calculate_wqi(data, params)`: run the accumulation loop
from `(0, 0)`; if the accumulated weight is zero return the diagnostic pair,
otherwise the accumulated sum together with its classification. -/
def calculate_wqi (data : Sample) (params : ParameterSet) :
    Except String (Option ℚ × String) :=
  match wqiLoop data params (0, 0) with
  | .error e => .error e
  | .ok acc =>
    if acc.2 = 0 then .ok (none, "No valid data provided")
    else .ok (some acc.1, classify_wqi acc.1)

/-- The `SPRINGS_PARAMS` table. -/
def SPRINGS_PARAMS : ParameterSet := [
  ("Aluminum [µg/l Al]", stdSpec 0.001828 200),
  ("Ammonium [mg/l NH4]", stdSpec 0.040472 0.5),
  ("Arsenic [µg/l As]", stdSpec 0.009174 10),
  ("Cadmium [µg/l Cd]", stdSpec 0.033676 5),
  ("Chlorides [mg/l Cl]", stdSpec 0.038744 250),
  ("Chlorites [µg/l ClO2]", stdSpec 0.018832 700),
  ("Copper [mg/l Cu]", stdSpec 0.119593 2),
  ("Fluorides [mg/l F]", stdSpec 0.01348 1.5),
  ("Hardness [°F]", stdSpec 0.100148 50),
  ("Iron [µg/l Fe]", stdSpec 0.040982 200),
  ("Lead [µg/l Pb]", stdSpec 0.096853 10),
  ("Magnesium [mg/l Mg]", stdSpec 0.111423 30),
  ("Manganese [µg/l Mn]", stdSpec 0.04212 50),
  ("Nitrates [mg/l NO3]", stdSpec 0.019065 50),
  ("pH", phSpec 0.076599 6.5 9.5),
  ("Sodium [mg/l Na]", stdSpec 0.016428 200),
  ("Sulfates [mg/l SO4]", stdSpec 0.078955 250),
  ("Turbidity [NTU]", stdSpec 0.049485 0.3),
  ("Vanadium [µg/l V]", stdSpec 0.010561 140),
  ("Zinc [µg/l Zn]", stdSpec 0.081582 5000)]

/-- The `WELLS_PARAMS` table. -/
def WELLS_PARAMS : ParameterSet := [
  ("Aluminum [µg/l Al]", stdSpec 0.08524457 200),
  ("Ammonium [mg/l NH4]", stdSpec 0.00472345 0.5),
  ("Arsenic [µg/l As]", stdSpec 0.02818904 10),
  ("Cadmium [µg/l Cd]", stdSpec 0.07304108 5),
  ("Chlorides [mg/l Cl]", stdSpec 0.05636716 250),
  ("Copper [mg/l Cu]", stdSpec 0.0546783 2),
  ("Fluorides [mg/l F]", stdSpec 0.08794153 1.5),
  ("Hardness [°F]", stdSpec 0.05360424 50),
  ("Iron [µg/l Fe]", stdSpec 0.07653616 200),
  ("Lead [µg/l Pb]", stdSpec 0.15238569 10),
  ("Magnesium [mg/l Mg]", stdSpec 0.06770434 30),
  ("Manganese [µg/l Mn]", stdSpec 0.04199309 50),
  ("Nitrates [mg/l NO3]", stdSpec 0.02516202 50),
  ("pH", phSpec 0.03543887 6.5 9.5),
  ("Sodium [mg/l Na]", stdSpec 0.07688634 200),
  ("Sulfates [mg/l SO4]", stdSpec 0.04959354 250),
  ("Turbidity [NTU]", stdSpec 0.0030536 0.3),
  ("Vanadium [µg/l V]", stdSpec 0.00286481 140),
  ("Zinc [µg/l Zn]", stdSpec 0.02459217 5000)]

/-- The `LAKES_PARAMS` table. -/
def LAKES_PARAMS : ParameterSet := [
  ("Aluminum [µg/l Al]", stdSpec 0.13732495 200),
  ("Ammonium [mg/l NH4]", stdSpec 0.08499825 0.5),
  ("Arsenic [µg/l As]", stdSpec 0.00785124 10),
  ("Cadmium [µg/l Cd]", stdSpec 0.03023614 5),
  ("Calcium [mg/l Ca]", stdSpec 0.0037585 300),
  ("Chlorides [mg/l Cl]", stdSpec 0.12006373 250),
  ("Conductivity at 20°C [µS/cm]", stdSpec 0.10301697 2500),
  ("Copper [mg/l Cu]", stdSpec 0.05903513 2),
  ("Fluorides [mg/l F]", stdSpec 0.05134627 1.5),
  ("Hardness [°F]", stdSpec 0.00831767 50),
  ("Iron [µg/l Fe]", stdSpec 0.02670118 200),
  ("Lead [µg/l Pb]", stdSpec 0.02825393 10),
  ("Manganese [µg/l Mn]", stdSpec 0.00192557 50),
  ("Nitrates [mg/l NO3]", stdSpec 0.02986598 50),
  ("pH", phSpec 0.03950439 6.5 9.5),
  ("Sodium [mg/l Na]", stdSpec 0.08998053 200),
  ("Sulfates [mg/l SO4]", stdSpec 0.02081114 250),
  ("Turbidity [NTU]", stdSpec 0.08237665 0.3),
  ("Vanadium [µg/l V]", stdSpec 0.03977873 140),
  ("Zinc [µg/l Zn]", stdSpec 0.03485305 5000)]

/-- Batch scoring: the batch tab applies
`df.apply(lambda row: calculate_wqi(row, PARAMETERS), axis=1)` — one
independent engine call per row, results in row order. -/
def score_batch (rows : List Sample) (params : ParameterSet) :
    List (Except String (Option ℚ × String)) :=
  rows.map (fun r => calculate_wqi r params)

/-- The batch tab's column fill: for every table key missing from the CSV,
`df[param] = np.nan` makes the key present with value NaN in every row. -/
def fillMissing (params : ParameterSet) (row : Sample) : Sample :=
  fun p =>
    if (params.map Prod.fst).contains p && (row p).isNone then some none else row p

/-- The present (finite, non-NaN) value of a sample at a key, if any: the
`param in data and not pd.isna(data[param])` guard succeeds exactly when
this is `some`. -/
def presentValue (data : Sample) (p : String) : Option ℚ := (data p).getD none

/-- Whether a table entry participates in the score of `data`: its key holds
a present finite value in the sample. -/
def participates (data : Sample) (pc : String × ParamConfig) : Bool :=
  (presentValue data pc.1).isSome

/-- The measured value of a participating parameter (`0` is a junk default
that is only ever read behind a `participates` filter). -/
def measured (data : Sample) (pc : String × ParamConfig) : ℚ :=
  (presentValue data pc.1).getD 0

/-- The variant-A sub-index formula as a total function: the `pH` branch
reads `high`, every other branch reads `standard` (with a junk default that
well-formed tables never reach). -/
def subIndexA (v : ℚ) (param : String) (cfg : ParamConfig) : ℚ :=
  if param = "pH" then |(v - 7) / (cfg.high.getD 0 - 7)| * 100
  else v / cfg.standard.getD 0 * 100

/-- The participating entries of a table for a given sample, in table order. -/
def participants (data : Sample) (params : ParameterSet) : ParameterSet :=
  params.filter (participates data)

/-- Weighted sub-index sum over exactly the participating parameters. -/
def weightedSum (data : Sample) (params : ParameterSet) : ℚ :=
  ((participants data params).map
    (fun pc => subIndexA (measured data pc) pc.1 pc.2 * pc.2.weight)).sum

/-- Total weight of exactly the participating parameters. -/
def totalWeight (data : Sample) (params : ParameterSet) : ℚ :=
  ((participants data params).map (fun pc => pc.2.weight)).sum

/-- A table entry that the sub-index calculator evaluates without raising:
`pH` carries a `high` key other than 7, every other parameter a nonzero
`standard` key. -/
def SpecOk (pc : String × ParamConfig) : Prop :=
  if pc.1 = "pH" then ∃ hi, pc.2.high = some hi ∧ hi ≠ 7
  else ∃ s, pc.2.standard = some s ∧ s ≠ 0

/-- A table all of whose entries are evaluable. -/
def WellFormed (params : ParameterSet) : Prop := ∀ pc ∈ params, SpecOk pc

/-- Parameter shapes of the second (ideal/limit) scoring variant. -/
inductive ShapeB where
  | lowerBetter (limit : ℚ)
  | coliform (limit : ℚ)
  | idealLimit (ideal limit : ℚ)
deriving DecidableEq, Repr

/-- The permissible limit of a variant-B shape. -/
def ShapeB.limit : ShapeB → ℚ
  | .lowerBetter l => l
  | .coliform l => l
  | .idealLimit _ l => l

/-- Modelled from the spec: the variant-B scoring model lives in the second
of the repository's two near-duplicate app files, which is not among the
staged sources, so its sub-index calculator is modelled from §4.1 of the
spec: any value strictly above the limit scores 0 regardless of shape;
otherwise "lower is better" parameters score `100 * (limit - value) /
limit`, the log-scaled coliform count scores `100 * (1 - log10 (max value 1)
/ log10 limit)` for positive values and 100 at zero, and ideal-point
parameters score `100 * (value - ideal) / (limit - ideal)` (a fixed 100 when
the spec is degenerate).  The base-10 logarithm is an uninterpreted
parameter `log10` here; no claim about the `value > limit` branch depends on
it. -/
def sub_index_B (log10 : ℚ → ℚ) (value : ℚ) (shape : ShapeB) : ℚ :=
  if shape.limit < value then 0
  else
    match shape with
    | .lowerBetter limit => 100 * (limit - value) / limit
    | .coliform limit =>
      if 0 < value then 100 * (1 - log10 (max value 1) / log10 limit) else 100
    | .idealLimit ideal limit =>
      if limit ≠ ideal then 100 * (value - ideal) / (limit - ideal) else 100

/-- A sample in which pH is 7.0 and every other column is missing. -/
def phOnlySample : Sample := fun p => if p = "pH" then some (some 7) else none

/-- A sample in which pH is 9.5 and every other column is missing. -/
def ph95Sample : Sample := fun p => if p = "pH" then some (some 9.5) else none

/-- A sample with every column missing. -/
def emptySample : Sample := fun _ => none

/-- A one-parameter table whose single weight is zero (the data model allows
any non-negative weight). -/
def zeroWeightTable : ParameterSet := [("Lead [µg/l Pb]", stdSpec 0 10)]

/-- A sample that is present and finite at that table's only parameter. -/
def leadSample : Sample := fun p => if p = "Lead [µg/l Pb]" then some (some 5) else none

/-- A second zero-weight one-parameter table. -/
def zeroWeightTable2 : ParameterSet := [("Turbidity [NTU]", stdSpec 0 0.3)]

/-- A sample that is present and finite at that table's only parameter. -/
def turbSample : Sample := fun p => if p = "Turbidity [NTU]" then some (some 1) else none

/-- A sample carrying a column, `Comment`, that no table knows. -/
def junkSample1 : Sample := fun p =>
  if p = "pH" then some (some 7) else if p = "Comment" then some (some 99) else none

/-- The same sample with a different value in the unknown column. -/
def junkSample2 : Sample := fun p =>
  if p = "pH" then some (some 7) else if p = "Comment" then some (some 1) else none

lemma calculate_sub_index_ok (v : ℚ) (pc : String × ParamConfig) (h : SpecOk pc) :
    calculate_sub_index (some v) pc.1 pc.2 = .ok (some (subIndexA v pc.1 pc.2)) := by
  by_cases hp : pc.1 = "pH"
  · obtain ⟨hi, hhi, hne⟩ : ∃ hi, pc.2.high = some hi ∧ hi ≠ 7 := by
      simpa [SpecOk, hp] using h
    simp [calculate_sub_index, subIndexA, hp, hhi, sub_ne_zero.mpr hne]
  · obtain ⟨s, hs, hne⟩ : ∃ s, pc.2.standard = some s ∧ s ≠ 0 := by
      simpa [SpecOk, hp] using h
    simp [calculate_sub_index, subIndexA, hp, hs, hne]

lemma wqiStep_ok (data : Sample) (acc : ℚ × ℚ) (pc : String × ParamConfig) (h : SpecOk pc) :
    wqiStep data acc pc =
      .ok (if participates data pc
        then (acc.1 + subIndexA (measured data pc) pc.1 pc.2 * pc.2.weight, acc.2 + pc.2.weight)
        else acc) := by
  rcases hd : data pc.1 with _ | o
  · simp [wqiStep, hd, participates, presentValue]
  · rcases o with _ | v
    · simp [wqiStep, hd, participates, presentValue]
    · simp [wqiStep, hd, participates, presentValue, measured, calculate_sub_index_ok v pc h]

lemma wqiStep_presentValue (data : Sample) (acc : ℚ × ℚ) (pc : String × ParamConfig) :
    wqiStep data acc pc =
      match presentValue data pc.1 with
      | none => .ok acc
      | some v =>
        match calculate_sub_index (some v) pc.1 pc.2 with
        | .error e => .error e
        | .ok none => .ok acc
        | .ok (some sub_index) => .ok (acc.1 + sub_index * pc.2.weight, acc.2 + pc.2.weight) := by
  rcases hd : data pc.1 with _ | o
  · simp [wqiStep, presentValue, hd]
  · rcases o with _ | v <;> simp [wqiStep, presentValue, hd]

lemma weightedSum_cons (data : Sample) (pc : String × ParamConfig) (rest : ParameterSet) :
    weightedSum data (pc :: rest) =
      (if participates data pc
        then subIndexA (measured data pc) pc.1 pc.2 * pc.2.weight else 0) +
      weightedSum data rest := by
  by_cases hp : participates data pc = true <;>
    simp [weightedSum, participants, List.filter_cons, hp]

lemma totalWeight_cons (data : Sample) (pc : String × ParamConfig) (rest : ParameterSet) :
    totalWeight data (pc :: rest) =
      (if participates data pc then pc.2.weight else 0) + totalWeight data rest := by
  by_cases hp : participates data pc = true <;>
    simp [totalWeight, participants, List.filter_cons, hp]

lemma weightedSum_nil (data : Sample) : weightedSum data [] = 0 := by
  simp [weightedSum, participants]

lemma totalWeight_nil (data : Sample) : totalWeight data [] = 0 := by
  simp [totalWeight, participants]

lemma wqiLoop_eq (data : Sample) : ∀ (params : ParameterSet), WellFormed params →
    ∀ acc : ℚ × ℚ,
      wqiLoop data params acc =
        .ok (acc.1 + weightedSum data params, acc.2 + totalWeight data params) := by
  intro params
  induction params with
  | nil =>
    intro _ acc
    simp [wqiLoop, weightedSum, totalWeight, participants]
  | cons pc rest ih =>
    intro h acc
    have hpc : SpecOk pc := h pc (List.mem_cons_self _ _)
    have hrest : WellFormed rest := fun x hx => h x (List.mem_cons_of_mem _ hx)
    rw [wqiLoop, wqiStep_ok data acc pc hpc]
    by_cases hp : participates data pc = true
    · simp only [hp, if_true]
      rw [ih hrest _]
      simp [weightedSum_cons, totalWeight_cons, hp]
      constructor <;> ring
    · simp only [hp, if_false]
      rw [ih hrest _]
      simp [weightedSum_cons, totalWeight_cons, hp]

lemma calculate_wqi_eval (data : Sample) (params : ParameterSet) (h : WellFormed params) :
    calculate_wqi data params =
      if totalWeight data params = 0 then .ok (none, "No valid data provided")
      else .ok (some (weightedSum data params), classify_wqi (weightedSum data params)) := by
  rw [calculate_wqi, wqiLoop_eq data params h (0, 0)]
  simp

lemma springs_wf : WellFormed SPRINGS_PARAMS := by
  norm_num +decide [WellFormed, SPRINGS_PARAMS, List.forall_mem_cons, SpecOk, stdSpec, phSpec]

lemma wells_wf : WellFormed WELLS_PARAMS := by
  norm_num +decide [WellFormed, WELLS_PARAMS, List.forall_mem_cons, SpecOk, stdSpec, phSpec]

lemma lakes_wf : WellFormed LAKES_PARAMS := by
  norm_num +decide [WellFormed, LAKES_PARAMS, List.forall_mem_cons, SpecOk, stdSpec, phSpec]

lemma totalWeight_ph95 : totalWeight ph95Sample SPRINGS_PARAMS = 0.076599 := by
  norm_num +decide [SPRINGS_PARAMS, totalWeight_cons, totalWeight_nil, participates,
    presentValue, ph95Sample, stdSpec, phSpec]

lemma weightedSum_ph95 : weightedSum ph95Sample SPRINGS_PARAMS = 7.6599 := by
  norm_num +decide [SPRINGS_PARAMS, weightedSum_cons, weightedSum_nil, participates,
    presentValue, ph95Sample, subIndexA, measured, stdSpec, phSpec]

lemma totalWeight_phOnly : totalWeight phOnlySample SPRINGS_PARAMS = 0.076599 := by
  norm_num +decide [SPRINGS_PARAMS, totalWeight_cons, totalWeight_nil, participates,
    presentValue, phOnlySample, stdSpec, phSpec]

lemma wqiLoop_congr (d1 d2 : Sample) : ∀ (params : ParameterSet),
    (∀ pc ∈ params, presentValue d1 pc.1 = presentValue d2 pc.1) →
    ∀ acc : ℚ × ℚ, wqiLoop d1 params acc = wqiLoop d2 params acc := by
  intro params
  induction params with
  | nil => intro _ _; rfl
  | cons pc rest ih =>
    intro h acc
    have hstep : wqiStep d1 acc pc = wqiStep d2 acc pc := by
      rw [wqiStep_presentValue, wqiStep_presentValue, h pc (List.mem_cons_self _ _)]
    simp only [wqiLoop, hstep]
    cases h2 : wqiStep d2 acc pc with
    | error e => simp
    | ok acc' => exact ih (fun x hx => h x (List.mem_cons_of_mem _ hx)) acc'

lemma calculate_wqi_congr (d1 d2 : Sample) (params : ParameterSet)
    (h : ∀ pc ∈ params, presentValue d1 pc.1 = presentValue d2 pc.1) :
    calculate_wqi d1 params = calculate_wqi d2 params := by
  rw [calculate_wqi, calculate_wqi, wqiLoop_congr d1 d2 params h (0, 0)]

lemma fillMissing_presentValue (params : ParameterSet) (row : Sample) (p : String) :
    presentValue (fillMissing params row) p = presentValue row p := by
  unfold presentValue fillMissing
  rcases hr : row p with _ | o
  · by_cases hc : p ∈ params.map Prod.fst <;> simp [hc]
  · simp

lemma totalWeight_zero_iff_of_pos (data : Sample) (params : ParameterSet)
    (hpos : ∀ pc ∈ params, 0 < pc.2.weight) :
    totalWeight data params = 0 ↔ ∀ pc ∈ params, participates data pc = false := by
  constructor
  · intro h
    by_contra hne
    push_neg at hne
    obtain ⟨pc, hpc, hp⟩ := hne
    have hptrue : participates data pc = true := by
      cases hb : participates data pc
      · exact absurd hb hp
      · rfl
    have hmem : pc ∈ participants data params :=
      List.mem_filter.mpr ⟨hpc, hptrue⟩
    have hlt : 0 < totalWeight data params := by
      refine List.sum_pos _ ?_ ?_
      · intro a ha
        obtain ⟨q, hq, rfl⟩ := List.mem_map.mp ha
        exact hpos q (List.mem_of_mem_filter hq)
      · simp only [ne_eq, List.map_eq_nil_iff]
        intro hnil
        rw [hnil] at hmem
        exact List.not_mem_nil _ hmem
    exact absurd h (ne_of_gt hlt)
  · intro h
    have hnil : participants data params = [] :=
      List.filter_eq_nil_iff.mpr (fun a ha => by simp [h a ha])
    simp [totalWeight, hnil]

/-- C6: end-to-end on the Springs table: for the pH spec with low 6.5 and
high 9.5, the sub-index of the value 7.0 is `abs((7 - 7) / (9.5 - 7)) * 100
= 0`; for a sample in which pH = 7.0 is the only present parameter the
engine returns WQI 0.0 classified "Excellent water". -/
theorem springs_ph_end_to_end :
    calculate_sub_index (some 7) ("pH") (phSpec 0.076599 6.5 9.5) =
      .ok (some (|((7 : ℚ) - 7) / (9.5 - 7)| * 100)) ∧
    |((7 : ℚ) - 7) / (9.5 - 7)| * 100 = 0 ∧
    calculate_wqi phOnlySample SPRINGS_PARAMS = .ok (some 0, "Excellent water") := by
  refine ⟨by norm_num [calculate_sub_index, phSpec], by norm_num, ?_⟩
  rw [calculate_wqi_eval phOnlySample SPRINGS_PARAMS springs_wf]
  norm_num +decide [SPRINGS_PARAMS, weightedSum_cons, totalWeight_cons, weightedSum_nil,
    totalWeight_nil, participates, presentValue, phOnlySample, subIndexA, measured, stdSpec,
    phSpec, classify_wqi]

/-- C2: `classify_wqi` implements policy A with exactly these boundaries,
evaluated top-down with the first match winning: strictly below 50 is
"Excellent water"; between 50 and 100 inclusive "Good water"; above 100 up
to 200 "Poor water"; above 200 up to 300 "Very poor water"; above 300
"Unsuitable for drinking"; in particular 50.0 is "Good water" and 49.999
"Excellent water". -/
theorem classify_wqi_policy_A (w : ℚ) :
    (w < 50 → classify_wqi w = "Excellent water") ∧
    (50 ≤ w → w ≤ 100 → classify_wqi w = "Good water") ∧
    (100 < w → w ≤ 200 → classify_wqi w = "Poor water") ∧
    (200 < w → w ≤ 300 → classify_wqi w = "Very poor water") ∧
    (300 < w → classify_wqi w = "Unsuitable for drinking") ∧
    classify_wqi 50 = "Good water" ∧ classify_wqi 49.999 = "Excellent water" := by
  refine ⟨fun h1 => ?_, fun h1 h2 => ?_, fun h1 h2 => ?_, fun h1 h2 => ?_, fun h1 => ?_, ?_, ?_⟩
  · rw [classify_wqi, if_pos h1]
  · rw [classify_wqi, if_neg (by push_neg; linarith), if_pos h2]
  · rw [classify_wqi, if_neg (by push_neg; linarith), if_neg (by push_neg; linarith), if_pos h2]
  · rw [classify_wqi, if_neg (by push_neg; linarith), if_neg (by push_neg; linarith),
      if_neg (by push_neg; linarith), if_pos h2]
  · rw [classify_wqi, if_neg (by push_neg; linarith), if_neg (by push_neg; linarith),
      if_neg (by push_neg; linarith), if_neg (by push_neg; linarith)]
  · norm_num [classify_wqi]
  · norm_num [classify_wqi]

/-- Witness for C2 at the concrete scores 49, 50, 150, 250 and 301. -/
theorem classify_wqi_policy_A_witness :
    classify_wqi 49 = "Excellent water" ∧ classify_wqi 50 = "Good water" ∧
    classify_wqi 150 = "Poor water" ∧ classify_wqi 250 = "Very poor water" ∧
    classify_wqi 301 = "Unsuitable for drinking" :=
  ⟨(classify_wqi_policy_A 49).1 (by norm_num),
   (classify_wqi_policy_A 50).2.1 (by norm_num) (by norm_num),
   (classify_wqi_policy_A 150).2.2.1 (by norm_num) (by norm_num),
   (classify_wqi_policy_A 250).2.2.2.1 (by norm_num) (by norm_num),
   (classify_wqi_policy_A 301).2.2.2.2.1 (by norm_num)⟩

/-- C1 counterexample: with a table whose only entry has weight 0 — the data
model allows any non-negative weight — a parameter is present in the sample
and matched by the table, yet `calculate_wqi` returns the diagnostic pair
instead of the weighted sum (which is 0 here). -/
theorem calculate_wqi_zero_weight_cex :
    ("Lead [µg/l Pb]", stdSpec 0 10) ∈ zeroWeightTable ∧
    participates leadSample ("Lead [µg/l Pb]", stdSpec 0 10) = true ∧
    weightedSum leadSample zeroWeightTable = 0 ∧
    calculate_wqi leadSample zeroWeightTable = .ok (none, "No valid data provided") := by
  have hwf : WellFormed zeroWeightTable := by
    norm_num +decide [WellFormed, zeroWeightTable, List.forall_mem_cons, SpecOk, stdSpec]
  refine ⟨by simp [zeroWeightTable], by simp [participates, presentValue, leadSample], ?_, ?_⟩
  · norm_num +decide [zeroWeightTable, weightedSum_cons, weightedSum_nil, participates,
      presentValue, leadSample, subIndexA, measured, stdSpec]
  · rw [calculate_wqi_eval leadSample zeroWeightTable hwf]
    norm_num +decide [zeroWeightTable, totalWeight_cons, totalWeight_nil, participates,
      presentValue, leadSample, stdSpec]

/-- C1 (amended): for a well-formed variant-A table, whenever the total
participating weight is nonzero (as is the case when some participating
parameter has positive weight and no weight is negative), `calculate_wqi`
returns as WQI exactly the sum, over exactly the participating parameters,
of `sub_index(value) * weight`, with no division by the weight total;
parameters absent from the sample contribute to neither accumulator. -/
theorem calculate_wqi_weighted_sum (data : Sample) (params : ParameterSet)
    (hwf : WellFormed params) (hw : totalWeight data params ≠ 0) :
    calculate_wqi data params =
      .ok (some (weightedSum data params), classify_wqi (weightedSum data params)) := by
  rw [calculate_wqi_eval data params hwf, if_neg hw]

/-- Witness for C1 on the Springs table with only pH = 9.5 present. -/
theorem calculate_wqi_weighted_sum_witness :
    calculate_wqi ph95Sample SPRINGS_PARAMS =
      .ok (some (weightedSum ph95Sample SPRINGS_PARAMS),
        classify_wqi (weightedSum ph95Sample SPRINGS_PARAMS)) :=
  calculate_wqi_weighted_sum ph95Sample SPRINGS_PARAMS springs_wf
    (by rw [totalWeight_ph95]; norm_num)

/-- C3 counterexample: with a zero-weight table entry the engine returns the
diagnostic pair although the parameter is present in the sample, refuting
the claimed equivalence of "total participating weight is zero" and "no
parameter has a present value". -/
theorem no_valid_data_cex :
    ("Turbidity [NTU]", stdSpec 0 0.3) ∈ zeroWeightTable2 ∧
    participates turbSample ("Turbidity [NTU]", stdSpec 0 0.3) = true ∧
    calculate_wqi turbSample zeroWeightTable2 = .ok (none, "No valid data provided") := by
  have hwf : WellFormed zeroWeightTable2 := by
    norm_num +decide [WellFormed, zeroWeightTable2, List.forall_mem_cons, SpecOk, stdSpec]
  refine ⟨by simp [zeroWeightTable2], by simp [participates, presentValue, turbSample], ?_⟩
  rw [calculate_wqi_eval turbSample zeroWeightTable2 hwf]
  norm_num +decide [zeroWeightTable2, totalWeight_cons, totalWeight_nil, participates,
    presentValue, turbSample, stdSpec]

/-- C3 (amended): for a well-formed table, `calculate_wqi` returns the
diagnostic pair `(absent, "No valid data provided")` exactly when the total
participating weight is zero; when every weight of the table is positive —
true of all shipped tables — that is in turn equivalent to no parameter of
the table having a present value in the sample; and an all-absent sample
always gets the diagnostic pair. -/
theorem no_valid_data_iff (data : Sample) (params : ParameterSet) (hwf : WellFormed params) :
    (calculate_wqi data params = .ok (none, "No valid data provided") ↔
      totalWeight data params = 0) ∧
    ((∀ pc ∈ params, 0 < pc.2.weight) →
      (totalWeight data params = 0 ↔ ∀ pc ∈ params, participates data pc = false)) ∧
    ((∀ p, data p = none) →
      calculate_wqi data params = .ok (none, "No valid data provided")) := by
  have heval := calculate_wqi_eval data params hwf
  refine ⟨⟨fun h => ?_, fun h => by rw [heval, if_pos h]⟩,
    totalWeight_zero_iff_of_pos data params, fun h => ?_⟩
  · by_contra hw
    rw [heval, if_neg hw] at h
    simp at h
  · have htw : totalWeight data params = 0 := by
      have : participants data params = [] :=
        List.filter_eq_nil_iff.mpr
          (fun a _ => by simp [participates, presentValue, h a.1])
      simp [totalWeight, this]
    rw [heval, if_pos htw]

/-- Witness for C3 on the Springs table with the all-absent sample. -/
theorem no_valid_data_iff_witness :
    (calculate_wqi emptySample SPRINGS_PARAMS = .ok (none, "No valid data provided") ↔
      totalWeight emptySample SPRINGS_PARAMS = 0) ∧
    ((∀ pc ∈ SPRINGS_PARAMS, 0 < pc.2.weight) →
      (totalWeight emptySample SPRINGS_PARAMS = 0 ↔
        ∀ pc ∈ SPRINGS_PARAMS, participates emptySample pc = false)) ∧
    ((∀ p, emptySample p = none) →
      calculate_wqi emptySample SPRINGS_PARAMS = .ok (none, "No valid data provided")) :=
  no_valid_data_iff emptySample SPRINGS_PARAMS springs_wf

/-- C4: for every non-pH spec of `{standard}` shape — per the data model a
positive standard — and every finite value, the variant-A sub-index is
`(value / standard) * 100`; at `value = standard` it is exactly 100, and any
value above the standard yields a sub-index above 100, with no upper clamp. -/
theorem sub_index_standard_formula (v s : ℚ) (param : String) (cfg : ParamConfig)
    (hp : param ≠ "pH") (hs : cfg.standard = some s) (hpos : 0 < s) :
    calculate_sub_index (some v) param cfg = .ok (some (v / s * 100)) ∧
    (v = s → calculate_sub_index (some v) param cfg = .ok (some 100)) ∧
    (s < v → 100 < v / s * 100) := by
  have hne : s ≠ 0 := ne_of_gt hpos
  have h1 : calculate_sub_index (some v) param cfg = .ok (some (v / s * 100)) := by
    simp [calculate_sub_index, hp, hs, hne]
  refine ⟨h1, fun hv => ?_, fun hv => ?_⟩
  · rw [h1, hv, div_self hne]
    norm_num
  · have hgt : 1 < v / s := (one_lt_div hpos).mpr hv
    nlinarith

/-- Witness for C4 with standard 2 and value 3. -/
theorem sub_index_standard_formula_witness :
    calculate_sub_index (some 3) ("Copper [mg/l Cu]") (stdSpec 0.119593 2) =
      .ok (some (3 / 2 * 100)) ∧
    ((3 : ℚ) = 2 →
      calculate_sub_index (some 3) ("Copper [mg/l Cu]") (stdSpec 0.119593 2) = .ok (some 100)) ∧
    ((2 : ℚ) < 3 → 100 < (3 : ℚ) / 2 * 100) :=
  sub_index_standard_formula 3 2 "Copper [mg/l Cu]" (stdSpec 0.119593 2) (by decide)
    (by simp [stdSpec]) (by norm_num)

/-- C5 counterexample: on the Springs table with only pH = 9.5 present, the
engine returns WQI 7.6599 while the weighted sum divided by the
participating weight total is 100 — aggregation does not divide. -/
theorem aggregation_division_cex :
    calculate_wqi ph95Sample SPRINGS_PARAMS = .ok (some 7.6599, "Excellent water") ∧
    weightedSum ph95Sample SPRINGS_PARAMS / totalWeight ph95Sample SPRINGS_PARAMS = 100 ∧
    (7.6599 : ℚ) ≠ 100 := by
  refine ⟨?_, ?_, by norm_num⟩
  · rw [calculate_wqi_eval ph95Sample SPRINGS_PARAMS springs_wf, totalWeight_ph95,
      weightedSum_ph95]
    norm_num [classify_wqi]
  · rw [totalWeight_ph95, weightedSum_ph95]
    norm_num

/-- C5 (amended): variant-A aggregation does not divide: for every sample
with nonzero participating weight over a well-formed table, the numeric WQI
returned is the accumulated weighted sub-index sum itself, not that sum
divided by the participating weight total (nor by any constant); the spec's
"aggregation always divides" invariant does not hold of this variant. -/
theorem aggregation_no_division (data : Sample) (params : ParameterSet)
    (hwf : WellFormed params) (hw : totalWeight data params ≠ 0) :
    ∃ label : String,
      calculate_wqi data params = .ok (some (weightedSum data params), label) := by
  rw [calculate_wqi_eval data params hwf, if_neg hw]
  exact ⟨classify_wqi (weightedSum data params), rfl⟩

/-- Witness for C5 on the Springs table with only pH = 7.0 present. -/
theorem aggregation_no_division_witness :
    ∃ label : String,
      calculate_wqi phOnlySample SPRINGS_PARAMS =
        .ok (some (weightedSum phOnlySample SPRINGS_PARAMS), label) :=
  aggregation_no_division phOnlySample SPRINGS_PARAMS springs_wf
    (by rw [totalWeight_phOnly]; norm_num)

/-- C7: batch scoring maps the engine over the rows independently and
order-preservingly: `n` rows give `n` results in row order, the `i`-th
result is the engine on the `i`-th row alone, a permutation of the rows
permutes the results identically, and filling a missing CSV column with NaN
(`df[param] = np.nan`) leaves every row's score unchanged — a missing
column is the parameter being absent in every row. -/
theorem score_batch_rowwise (rows rows2 : List Sample) (params : ParameterSet) :
    (score_batch rows params).length = rows.length ∧
    (∀ i (h : i < rows.length) (h2 : i < (score_batch rows params).length),
      (score_batch rows params).get ⟨i, h2⟩ = calculate_wqi (rows.get ⟨i, h⟩) params) ∧
    (rows.Perm rows2 → (score_batch rows params).Perm (score_batch rows2 params)) ∧
    score_batch (rows.map (fillMissing params)) params = score_batch rows params := by
  have hrow : ∀ r : Sample, calculate_wqi (fillMissing params r) params = calculate_wqi r params :=
    fun r => calculate_wqi_congr _ _ _ (fun pc _ => fillMissing_presentValue params r pc.1)
  refine ⟨by simp [score_batch], fun i h h2 => ?_, fun hp => hp.map _, ?_⟩
  · simp [score_batch]
  · simp [score_batch, List.map_map, Function.comp_def, hrow]

/-- Witness for C7 on two concrete Springs rows: two rows give two results,
swapping the rows permutes the results, and filling missing columns changes
nothing. -/
theorem score_batch_rowwise_witness :
    (score_batch [phOnlySample, ph95Sample] SPRINGS_PARAMS).length =
      ([phOnlySample, ph95Sample] : List Sample).length ∧
    (score_batch [phOnlySample, ph95Sample] SPRINGS_PARAMS).Perm
      (score_batch [ph95Sample, phOnlySample] SPRINGS_PARAMS) ∧
    score_batch ([phOnlySample].map (fillMissing SPRINGS_PARAMS)) SPRINGS_PARAMS =
      score_batch [phOnlySample] SPRINGS_PARAMS :=
  ⟨(score_batch_rowwise [phOnlySample, ph95Sample] [ph95Sample, phOnlySample] SPRINGS_PARAMS).1,
   (score_batch_rowwise [phOnlySample, ph95Sample] [ph95Sample, phOnlySample]
      SPRINGS_PARAMS).2.2.1 (List.Perm.swap ph95Sample phOnlySample []),
   (score_batch_rowwise [phOnlySample] [phOnlySample] SPRINGS_PARAMS).2.2.2⟩

/-- C8: in the second (variant-B, ideal/limit) scoring model, any value
strictly greater than the parameter's limit scores a sub-index of exactly 0,
regardless of the parameter's shape (and of the log implementation). -/
theorem sub_index_B_above_limit_zero (log10 : ℚ → ℚ) (value : ℚ) (shape : ShapeB)
    (h : shape.limit < value) : sub_index_B log10 value shape = 0 := by
  simp [sub_index_B, h]

/-- Witness for C8 at limit 10 and value 11. -/
theorem sub_index_B_above_limit_zero_witness :
    sub_index_B (fun _ => 0) 11 (ShapeB.lowerBetter 10) = 0 :=
  sub_index_B_above_limit_zero (fun _ => 0) 11 (ShapeB.lowerBetter 10)
    (by norm_num [ShapeB.limit])

/-- C9: noninterference of unrecognized keys: two samples that agree on
every key of the parameter set get identical results from `calculate_wqi`;
sample entries whose keys are not in the table are never read. -/
theorem calculate_wqi_noninterference (s1 s2 : Sample) (params : ParameterSet)
    (h : ∀ pc ∈ params, s1 pc.1 = s2 pc.1) :
    calculate_wqi s1 params = calculate_wqi s2 params :=
  calculate_wqi_congr s1 s2 params (fun pc hpc => by rw [presentValue, presentValue, h pc hpc])

/-- Witness for C9: two Springs samples that differ only in an unknown
`Comment` column score identically. -/
theorem calculate_wqi_noninterference_witness :
    calculate_wqi junkSample1 SPRINGS_PARAMS = calculate_wqi junkSample2 SPRINGS_PARAMS :=
  calculate_wqi_noninterference junkSample1 junkSample2 SPRINGS_PARAMS
    (by norm_num +decide [SPRINGS_PARAMS, List.forall_mem_cons, junkSample1, junkSample2])

/-- C10 counterexample: a non-pH spec that carries the `standard` key with
value 0 satisfies the claim's precondition (the key is present), yet the
calculator raises: in Python `value / 0` is a `ZeroDivisionError`. -/
theorem sub_index_zero_standard_raises :
    (stdSpec 1 0).standard.isSome = true ∧
    calculate_sub_index (some 5) ("Turbidity [NTU]") (stdSpec 1 0) =
      .error ("ZeroDivisionError") := by
  refine ⟨by simp [stdSpec], ?_⟩
  norm_num +decide [calculate_sub_index, stdSpec]

/-- C10 (amended): `calculate_sub_index` dispatches on the name being
exactly "pH", not on the spec's shape: the `low` field is never read; for
"pH" the `standard` field is never read; for any other name a present value
makes it read `standard` unconditionally (a missing key raises `KeyError`);
and under the precondition that every non-pH spec carries a nonzero
`standard` and the pH spec a `high` other than 7 — true of all three
shipped tables — the calculator is total on finite inputs and never
raises. -/
theorem sub_index_dispatch_total (v : ℚ) (param : String) (cfg : ParamConfig) :
    (∀ lo lo' : Option ℚ,
      calculate_sub_index (some v) param ⟨cfg.weight, cfg.standard, lo, cfg.high⟩ =
      calculate_sub_index (some v) param ⟨cfg.weight, cfg.standard, lo', cfg.high⟩) ∧
    (param = "pH" → ∀ st st' : Option ℚ,
      calculate_sub_index (some v) param ⟨cfg.weight, st, cfg.low, cfg.high⟩ =
      calculate_sub_index (some v) param ⟨cfg.weight, st', cfg.low, cfg.high⟩) ∧
    (param ≠ "pH" → cfg.standard = none →
      calculate_sub_index (some v) param cfg = .error ("KeyError: standard")) ∧
    (SpecOk (param, cfg) → ∃ r : ℚ, calculate_sub_index (some v) param cfg = .ok (some r)) ∧
    WellFormed SPRINGS_PARAMS ∧ WellFormed WELLS_PARAMS ∧ WellFormed LAKES_PARAMS := by
  refine ⟨fun lo lo' => ?_, fun hp st st' => ?_, fun hp hstd => ?_, fun h => ?_,
    springs_wf, wells_wf, lakes_wf⟩
  · by_cases hp : param = "pH" <;> simp [calculate_sub_index, hp]
  · simp [calculate_sub_index, hp]
  · simp [calculate_sub_index, hp, hstd]
  · exact ⟨subIndexA v param cfg, calculate_sub_index_ok v (param, cfg) h⟩

/-- Witness for C10: the calculator succeeds on a shipped non-pH spec. -/
theorem sub_index_dispatch_total_witness :
    ∃ r : ℚ,
      calculate_sub_index (some 3) ("Lead [µg/l Pb]") (stdSpec 0.096853 10) = .ok (some r) :=
  (sub_index_dispatch_total 3 "Lead [µg/l Pb]" (stdSpec 0.096853 10)).2.2.2.1
    (by norm_num +decide [SpecOk, stdSpec])
